import Mathlib

/-!
Shallow embedding of `src/whatsapp-sender.js` (Xablau-Monitoring):
a script that resolves a WhatsApp target (group or contact) to a chat id,
sends one message, races a delivery acknowledgment against a timeout, and
turns the various terminal events into a process exit code.
-/

namespace Xablau

/-! ### JavaScript string helpers

`String.prototype.includes` and `String.prototype.toLowerCase`, modelled on
character lists. -/

/-- Whether the first character list is an initial segment of the second. -/
def leadsWith : List Char → List Char → Bool
  | [], _ => true
  | _ :: _, [] => false
  | a :: as, b :: bs => a == b && leadsWith as bs

/-- Whether the first character list occurs contiguously inside the second. -/
def occursIn (needle : List Char) : List Char → Bool
  | [] => leadsWith needle []
  | b :: bs => leadsWith needle (b :: bs) || occursIn needle bs

/-- JS `s.includes(pat)`. -/
def jsIncludes (s pat : String) : Bool := occursIn pat.data s.data

/-- ASCII lowercasing of one character (JS `toLowerCase` restricted to the
ASCII range the script's configuration uses). -/
def lowerChar (c : Char) : Char :=
  if 'A' ≤ c ∧ c ≤ 'Z' then Char.ofNat (c.toNat + 32) else c

/-- JS `s.toLowerCase()`. -/
def lowerStr (s : String) : String := ⟨s.data.map lowerChar⟩

/-! ### Benign error classification (lines 142-146, 196-200, 264-271)

The script classifies an error's message text as a benign post-send artifact
of the `sendSeen: false` option when it contains one of three substrings. -/

/-- `isMarkedUnreadError` from the script: the benign-post-send-artifact
pattern, matched on the error's message text. -/
def isMarkedUnreadError (errorMsg : String) : Bool :=
  jsIncludes errorMsg "markedUnread" ||
  jsIncludes errorMsg "sendSeen" ||
  jsIncludes errorMsg "Cannot read properties of undefined"

/-! ### Target resolver (lines 92-127) -/

/-- A chat identifier as the client exposes it (`id._serialized`). -/
structure ChatIdent where
  serialized : String
  deriving DecidableEq, Repr

/-- One entry of the channel snapshot returned by `client.getChats()`. -/
structure Chat where
  isGroup : Bool
  name : String
  id : ChatIdent
  deriving DecidableEq, Repr

/-- The predicate inside `chats.find(...)` (lines 95-101): a chat is accepted
when it is a group and its name matches case-insensitively, or its id matches
the target exactly, or its id matches the target with `@g.us` appended. -/
def groupMatches (target : String) (chat : Chat) : Bool :=
  chat.isGroup &&
    (lowerStr chat.name == lowerStr target ||
     chat.id.serialized == target ||
     chat.id.serialized == target ++ "@g.us")

/-- `chats.find(...)` (line 95): the first chat of the snapshot, in snapshot
order, satisfying `groupMatches`. -/
def findGroup (chats : List Chat) (target : String) : Option Chat :=
  chats.find? (groupMatches target)

/-- A chat matching the target by exact case-insensitive name (the first
disjunct of `groupMatches` alone). -/
def nameMatches (target : String) (chat : Chat) : Bool :=
  chat.isGroup && (lowerStr chat.name == lowerStr target)

/-- The contact branch of the ready handler (lines 116-127): a target holding
`@` is used verbatim; otherwise every non-digit character is removed
(`target.replace(/\D/g, "")`) and `@c.us` is appended. -/
def resolveContact (target : String) : String :=
  if jsIncludes target "@" then target
  else String.mk (target.data.filter Char.isDigit) ++ "@c.us"

/-! ### Sent messages -/

/-- `sent.id` as the client returns it: `_serialized` may be absent. -/
structure MsgIdent where
  serialized : Option String
  deriving DecidableEq, Repr

/-- The object returned by a successful `client.sendMessage`; its `id` field
may be absent. -/
structure SentMessage where
  id : Option MsgIdent
  deriving DecidableEq, Repr

/-- JS truthiness of `sent.id && sent.id._serialized` (line 173): the id must
be present, carry a `_serialized` field, and that string must be non-empty
(the empty string is falsy in JS). -/
def hasSerializedId (sent : SentMessage) : Bool :=
  match sent.id with
  | none => false
  | some mid =>
    match mid.serialized with
    | none => false
    | some sid => sid != ""

/-! ### Send orchestrator (lines 129-170)

`client.sendMessage(chatId, message, { sendSeen: false })`, with one retry
when the first attempt's error text matches the benign pattern.  The external
send operation is a parameter mapping the call's arguments and the attempt
index to a result; the orchestrator records the calls it issued so that the
retry's arguments are visible. -/

/-- The options object passed to `client.sendMessage`. -/
structure SendOptions where
  sendSeen : Bool
  deriving DecidableEq, Repr

/-- The arguments of one `client.sendMessage` invocation. -/
structure SendCall where
  chatId : String
  text : String
  options : SendOptions
  deriving DecidableEq, Repr

/-- The result of one `client.sendMessage` invocation: a sent message, or a
thrown error carrying its message text. -/
inductive SendResult where
  | ok (sent : SentMessage)
  | err (msg : String)
  deriving DecidableEq, Repr

/-- What the try/catch around the send leaves behind: a sent message or a
propagated error. -/
inductive SendFinal where
  | success (sent : SentMessage)
  | failure (errMsg : String)
  deriving DecidableEq, Repr

/-- The orchestrator's observable outcome: the value of `messageWasSent`, the
propagated result, and the list of `client.sendMessage` calls issued. -/
structure OrchestratorOutcome where
  messageWasSent : Bool
  result : SendFinal
  calls : List SendCall
  deriving DecidableEq, Repr

/-- Lines 129-170: try the send; on success set `messageWasSent`.  On an
error matching the benign pattern, retry once with the same arguments,
succeeding or propagating the retry's error; on any other error propagate it
at once. -/
def sendWithRetry (send : SendCall → Nat → SendResult) (chatId text : String) :
    OrchestratorOutcome :=
  let call : SendCall := ⟨chatId, text, ⟨false⟩⟩
  match send call 0 with
  | .ok s => ⟨true, .success s, [call]⟩
  | .err e1 =>
    if isMarkedUnreadError e1 then
      match send call 1 with
      | .ok s => ⟨true, .success s, [call, call]⟩
      | .err e2 => ⟨false, .failure e2, [call, call]⟩
    else ⟨false, .failure e1, [call]⟩

/-! ### Delivery confirmer: `waitForAck` (lines 62-77)

The race between the `message_ack` listener and a `setTimeout` timer is
modelled as a fold over the timeline of `message_ack` events, each carrying
its arrival time (milliseconds since the race started).  The timer fires as
soon as the timeline passes `timeoutMs`; a JS promise keeps the value of its
first `resolve`. -/

/-- One `message_ack` event: `msg.id._serialized` when `msg.id` is present
and carries the field, and the numeric `ack` argument. -/
structure AckObservation where
  messageId : Option String
  level : Int
  time : Nat
  deriving DecidableEq, Repr

/-- The race's state: the global `messageAcked` flag, whether the
`message_ack` handler is still registered, whether the timer is still
pending, the promise's resolution (first value wins), and how many times
`resolve` was invoked. -/
structure AckState where
  messageAcked : Bool
  listenerOn : Bool
  timerOn : Bool
  resolved : Option Bool
  resolveCalls : Nat
  deriving DecidableEq, Repr

/-- State when `waitForAck` starts: flag clear, listener registered, timer
armed, promise pending. -/
def AckState.initial : AckState := ⟨false, true, true, none, 0⟩

/-- `resolve(b)`: a JS promise keeps its first resolution value. -/
def resolveWith (b : Bool) (s : AckState) : AckState :=
  { s with resolved := some (s.resolved.getD b), resolveCalls := s.resolveCalls + 1 }

/-- The timer callback (line 64): when still pending, it fires `resolve(false)`
— and removes nothing. -/
def fireTimer (s : AckState) : AckState :=
  if s.timerOn then resolveWith false { s with timerOn := false } else s

/-- The handler's filter (line 67): `msg.id && msg.id._serialized === messageId`. -/
def obsMatches (messageId : String) (o : AckObservation) : Bool :=
  o.messageId == some messageId

/-- The `message_ack` handler (lines 66-73): when registered and the event
matches, set `messageAcked = ack >= 1`, clear the timer, remove the listener,
and `resolve(true)`. -/
def handleObs (messageId : String) (o : AckObservation) (s : AckState) : AckState :=
  if s.listenerOn && obsMatches messageId o then
    resolveWith true
      { s with messageAcked := decide (1 ≤ o.level), timerOn := false, listenerOn := false }
  else s

/-- One event of the timeline: if its arrival time has passed the timeout the
timer fires first, then the handler sees the event. -/
def ackStep (messageId : String) (timeoutMs : Nat) (s : AckState) (o : AckObservation) :
    AckState :=
  handleObs messageId o (if timeoutMs ≤ o.time then fireTimer s else s)

/-- The whole race over a timeline of `message_ack` events: fold the events
in arrival order, then let the timer fire if it is still pending. -/
def ackRace (messageId : String) (timeoutMs : Nat) (obs : List AckObservation) : AckState :=
  fireTimer (obs.foldl (ackStep messageId timeoutMs) AckState.initial)

/-! ### Exit-code handlers -/

/-- The ready handler's catch block (lines 194-218): exit 0 when the message
was sent and the error text matches the benign pattern, else exit 1. -/
def readyCatchExit (errMsg : String) (messageWasSent : Bool) : Nat :=
  if messageWasSent && isMarkedUnreadError errMsg then 0 else 1

/-- The `disconnected` handler (lines 237-256): exit 0 when the message was
sent, else exit 1. -/
def disconnectedExit (messageWasSent : Bool) : Nat :=
  if messageWasSent then 0 else 1

/-- The `unhandledRejection` handler (lines 259-283): exit 0 when the text is
benign and the message was sent or acked; otherwise exit 0 when the message
was sent or acked, else exit 1. -/
def unhandledRejectionExit (errMsg : String) (messageWasSent messageAcked : Bool) : Nat :=
  if isMarkedUnreadError errMsg && (messageWasSent || messageAcked) then 0
  else if messageWasSent || messageAcked then 0 else 1

/-- The `auth_failure` handler (lines 222-234) always exits 1. -/
def authFailureExit : Nat := 1

/-- The group-not-found branch (lines 103-112) always exits 1. -/
def groupNotFoundExit : Nat := 1

/-- The `client.initialize().catch` handler (lines 314-323) always exits 1. -/
def initErrorExit : Nat := 1

/-- The disabled-feature short-circuit (lines 25-28) exits 0. -/
def disabledExit : Nat := 0

/-- The failure classes of the script, each with the data its handler reads. -/
inductive FailureEvent where
  | resolveFailure
  | sendFailure (errMsg : String)
  | disconnected
  | unhandledRejection (errMsg : String)
  | authFailure
  | initError
  deriving DecidableEq, Repr

/-- The exit code each failure class produces, as a function of the
`messageWasSent` and `messageAcked` flags at the time the handler runs. -/
def failureExitCode : FailureEvent → Bool → Bool → Nat
  | .resolveFailure, _, _ => groupNotFoundExit
  | .sendFailure e, sent, _ => readyCatchExit e sent
  | .disconnected, sent, _ => disconnectedExit sent
  | .unhandledRejection e, sent, acked => unhandledRejectionExit e sent acked
  | .authFailure, _, _ => authFailureExit
  | .initError, _, _ => initErrorExit

/-! ### Post-send phase of the ready handler (lines 172-193) -/

/-- What the tail of the ready handler leaves behind: the race's final state
when `waitForAck` ran (`none` means no listener and no timer were ever
installed), the final `messageAcked` flag, the settle delay, whether
`client.destroy()` ran, and the exit code. -/
structure PipelineResult where
  raceState : Option AckState
  messageAcked : Bool
  settleDelayMs : Nat
  destroyed : Bool
  exitCode : Nat
  deriving DecidableEq, Repr

/-- Lines 172-193: when the sent message carries a truthy serialized id, run
`waitForAck`; either way, wait 1000 ms, destroy the client and exit 0.
`messageAcked` is false on entry (the handler that sets it is registered only
inside `waitForAck`). -/
def postSendPhase (sent : SentMessage) (timeoutMs : Nat) (obs : List AckObservation) :
    PipelineResult :=
  match sent.id with
  | some mid =>
    match mid.serialized with
    | some sid =>
      if sid != "" then
        let r := ackRace sid timeoutMs obs
        ⟨some r, r.messageAcked, 1000, true, 0⟩
      else ⟨none, false, 1000, true, 0⟩
    | none => ⟨none, false, 1000, true, 0⟩
  | none => ⟨none, false, 1000, true, 0⟩

/-! ### Global flag discipline (lines 59-60, 133-139, 152-158, 172-176)

The two module-level flags and the `message_ack` listener, as a step relation
over the mutation sites of the script: `messageWasSent = true` runs only on a
successful send (lines 136, 155); the listener is registered only by the
`waitForAck` call at line 176, reached only after a successful send; the
handler (lines 66-73) runs only while registered, assigns
`messageAcked = ack >= 1` and removes itself; the timer callback (line 64)
touches neither flag. -/

/-- The mutable global state of the script that the terminal handlers read. -/
structure GlobalState where
  sent : Bool
  acked : Bool
  listenerOn : Bool
  deriving DecidableEq, Repr

/-- Process start: both flags clear, no listener. -/
def GlobalState.start : GlobalState := ⟨false, false, false⟩

/-- The mutation steps of the script. -/
inductive Step : GlobalState → GlobalState → Prop where
  | markSent : Step ⟨false, false, false⟩ ⟨true, false, false⟩
  | subscribe : Step ⟨true, false, false⟩ ⟨true, false, true⟩
  | ackFire (lvl : Int) (s a : Bool) : Step ⟨s, a, true⟩ ⟨s, decide (1 ≤ lvl), false⟩
  | timerFire (s : GlobalState) : Step s s

/-- States the script can reach from process start. -/
def Reachable (s : GlobalState) : Prop :=
  Relation.ReflTransGen Step GlobalState.start s

/-! ### Helper lemmas -/

/-- A successful `find?` splits the list at the found element, with every
earlier element rejected by the predicate. -/
theorem find?_split {α : Type} (p : α → Bool) :
    ∀ (l : List α) (a : α), l.find? p = some a →
      p a = true ∧ ∃ l₁ l₂, l = l₁ ++ a :: l₂ ∧ ∀ x ∈ l₁, p x = false := by
  intro l
  induction l with
  | nil => intro a h; simp [List.find?] at h
  | cons b bs ih =>
    intro a h
    cases hb : p b with
    | true =>
      rw [List.find?_cons_of_pos _ hb] at h
      cases h
      exact ⟨hb, [], bs, rfl, by simp⟩
    | false =>
      rw [List.find?_cons_of_neg _ (by simp [hb])] at h
      obtain ⟨hpa, l₁, l₂, rfl, hprior⟩ := ih a h
      refine ⟨hpa, b :: l₁, l₂, rfl, ?_⟩
      intro x hx
      rcases List.mem_cons.mp hx with rfl | hx
      · exact hb
      · exact hprior x hx

/-- The script-wide invariant: the `acked` flag and a registered listener both
imply a recorded send. -/
theorem reachable_inv (s : GlobalState) (h : Reachable s) :
    (s.acked = true → s.sent = true) ∧ (s.listenerOn = true → s.sent = true) := by
  have h' : Relation.ReflTransGen Step GlobalState.start s := h
  clear h
  induction h' with
  | refl => constructor <;> intro hc <;> simp [GlobalState.start] at hc
  | tail _ hstep ih =>
    cases hstep with
    | markSent => exact ⟨fun _ => rfl, fun _ => rfl⟩
    | subscribe => exact ⟨fun _ => rfl, fun _ => rfl⟩
    | ackFire lvl sb ab => exact ⟨fun _ => ih.2 rfl, fun _ => ih.2 rfl⟩
    | timerFire s2 => exact ih

/-- The timer callback touches neither the `messageAcked` flag nor the
listener registration. -/
theorem fireTimer_acked_listener (s : AckState) :
    (fireTimer s).messageAcked = s.messageAcked ∧ (fireTimer s).listenerOn = s.listenerOn := by
  unfold fireTimer resolveWith
  split <;> exact ⟨rfl, rfl⟩

/-- With the listener removed and the timer spent, a `message_ack` event
changes nothing. -/
theorem ackStep_inert (mid : String) (T : Nat) (s : AckState) (o : AckObservation)
    (hl : s.listenerOn = false) (ht : s.timerOn = false) :
    ackStep mid T s o = s := by
  unfold ackStep handleObs fireTimer
  simp [hl, ht]

/-- With the listener removed and the timer spent, the whole remaining
timeline changes nothing. -/
theorem foldl_inert (mid : String) (T : Nat) :
    ∀ (obs : List AckObservation) (s : AckState), s.listenerOn = false → s.timerOn = false →
      obs.foldl (ackStep mid T) s = s := by
  intro obs
  induction obs with
  | nil => intro s _ _; rfl
  | cons o os ih =>
    intro s hl ht
    simp only [List.foldl_cons, ackStep_inert mid T s o hl ht]
    exact ih s hl ht

/-- With the listener removed, the remaining timeline never changes the
`messageAcked` flag and the listener stays removed (the timer may still fire,
which touches neither). -/
theorem foldl_listener_off (mid : String) (T : Nat) :
    ∀ (obs : List AckObservation) (s : AckState), s.listenerOn = false →
      (obs.foldl (ackStep mid T) s).messageAcked = s.messageAcked ∧
      (obs.foldl (ackStep mid T) s).listenerOn = false := by
  intro obs
  induction obs with
  | nil => intro s hl; exact ⟨rfl, hl⟩
  | cons o os ih =>
    intro s hl
    have hstep : (ackStep mid T s o).messageAcked = s.messageAcked ∧
        (ackStep mid T s o).listenerOn = false := by
      unfold ackStep handleObs
      have hfl := fireTimer_acked_listener s
      split <;> simp [hl, hfl.1, hfl.2]
    rw [List.foldl_cons]
    obtain ⟨h1, h2⟩ := ih (ackStep mid T s o) hstep.2
    exact ⟨h1.trans hstep.1, h2⟩

/-- Along the timeline, the `messageAcked` flag ends as `ack >= 1` of the
first matching event, and the listener is removed exactly when a matching
event occurred — whether before or after the timeout. -/
theorem foldl_acked_of_listener_on (mid : String) (T : Nat) :
    ∀ (obs : List AckObservation) (s : AckState), s.listenerOn = true →
      (obs.foldl (ackStep mid T) s).messageAcked =
        (match obs.find? (obsMatches mid) with
         | some o => decide (1 ≤ o.level)
         | none => s.messageAcked) ∧
      (obs.foldl (ackStep mid T) s).listenerOn =
        (obs.find? (obsMatches mid)).isNone := by
  intro obs
  induction obs with
  | nil => intro s hl; exact ⟨rfl, hl⟩
  | cons o os ih =>
    intro s hl
    rw [List.foldl_cons]
    cases hm : obsMatches mid o with
    | true =>
      rw [List.find?_cons_of_pos _ hm]
      have hfl := fireTimer_acked_listener s
      have hstep : (ackStep mid T s o).messageAcked = decide (1 ≤ o.level) ∧
          (ackStep mid T s o).listenerOn = false := by
        unfold ackStep handleObs resolveWith
        split <;> simp [hm, hl, hfl.2]
      obtain ⟨h1, h2⟩ := foldl_listener_off mid T os (ackStep mid T s o) hstep.2
      exact ⟨h1.trans hstep.1, by simp [h2]⟩
    | false =>
      rw [List.find?_cons_of_neg _ (by simp [hm])]
      have hfl := fireTimer_acked_listener s
      have hstep : (ackStep mid T s o).messageAcked = s.messageAcked ∧
          (ackStep mid T s o).listenerOn = true := by
        unfold ackStep handleObs
        split <;> simp [hm, hl, hfl.1, hfl.2]
      obtain ⟨h1, h2⟩ := ih (ackStep mid T s o) hstep.2
      refine ⟨?_, h2⟩
      rw [h1, hstep.1]

/-- Once the timer has fired (promise already resolved `false`), the rest of
the timeline can never change the resolution: a late matching event calls
`resolve(true)` but the promise keeps its first value. -/
theorem foldl_resolved_after_timeout (mid : String) (T : Nat) :
    ∀ (obs : List AckObservation) (s : AckState),
      s.listenerOn = true → s.timerOn = false → s.resolved = some false →
      (obs.foldl (ackStep mid T) s).resolved = some false ∧
      (obs.foldl (ackStep mid T) s).timerOn = false := by
  intro obs
  induction obs with
  | nil => intro s _ ht hr; exact ⟨hr, ht⟩
  | cons o os ih =>
    intro s hl ht hr
    rw [List.foldl_cons]
    have hinner : (if T ≤ o.time then fireTimer s else s) = s := by
      unfold fireTimer
      split <;> simp [ht]
    cases hm : obsMatches mid o with
    | true =>
      have hstep : ackStep mid T s o =
          ⟨decide (1 ≤ o.level), false, false, some false, s.resolveCalls + 1⟩ := by
        unfold ackStep
        rw [hinner]
        unfold handleObs resolveWith
        simp [hm, hl, hr]
      rw [hstep, foldl_inert mid T os _ rfl rfl]
      exact ⟨rfl, rfl⟩
    | false =>
      have hstep : ackStep mid T s o = s := by
        unfold ackStep
        rw [hinner]
        unfold handleObs
        simp [hm]
      rw [hstep]
      exact ih s hl ht hr

/-- Over a time-ordered timeline, the promise resolves `true` exactly when
the first matching event arrives strictly before the timeout; with no
matching event it resolves `false`. -/
theorem ackRace_resolved_sorted (mid : String) (T : Nat) :
    ∀ (obs : List AckObservation), obs.Pairwise (fun a b => a.time ≤ b.time) →
      (ackRace mid T obs).resolved =
        (match obs.find? (obsMatches mid) with
         | some o => some (decide (o.time < T))
         | none => some false) := by
  intro obs
  induction obs with
  | nil => intro _; rfl
  | cons o os ih =>
    intro hs
    rw [List.pairwise_cons] at hs
    obtain ⟨hle, htail⟩ := hs
    unfold ackRace
    rw [List.foldl_cons]
    cases hm : obsMatches mid o with
    | true =>
      rw [List.find?_cons_of_pos _ hm]
      by_cases hT : T ≤ o.time
      · have hstep : ackStep mid T AckState.initial o =
            ⟨decide (1 ≤ o.level), false, false, some false, 2⟩ := by
          unfold ackStep
          rw [if_pos hT]
          unfold AckState.initial fireTimer handleObs resolveWith
          simp [hm]
        rw [hstep, foldl_inert mid T os _ rfl rfl]
        have : (fireTimer ⟨decide (1 ≤ o.level), false, false, some false, 2⟩).resolved =
            some false := rfl
        rw [this]
        show some false = some (decide (o.time < T))
        rw [decide_eq_false (Nat.not_lt.mpr hT)]
      · have hstep : ackStep mid T AckState.initial o =
            ⟨decide (1 ≤ o.level), false, false, some true, 1⟩ := by
          unfold ackStep
          rw [if_neg hT]
          unfold AckState.initial handleObs resolveWith
          simp [hm]
        rw [hstep, foldl_inert mid T os _ rfl rfl]
        have : (fireTimer ⟨decide (1 ≤ o.level), false, false, some true, 1⟩).resolved =
            some true := rfl
        rw [this]
        show some true = some (decide (o.time < T))
        rw [decide_eq_true (Nat.not_le.mp hT)]
    | false =>
      rw [List.find?_cons_of_neg _ (by simp [hm])]
      by_cases hT : T ≤ o.time
      · have hstep : ackStep mid T AckState.initial o =
            ⟨false, true, false, some false, 1⟩ := by
          unfold ackStep
          rw [if_pos hT]
          unfold AckState.initial fireTimer handleObs resolveWith
          simp [hm]
        rw [hstep]
        obtain ⟨h1, h2⟩ :=
          foldl_resolved_after_timeout mid T os ⟨false, true, false, some false, 1⟩ rfl rfl rfl
        have hft : (fireTimer (os.foldl (ackStep mid T) ⟨false, true, false, some false, 1⟩)).resolved
            = some false := by
          unfold fireTimer
          simp [h2, h1]
        rw [hft]
        cases hfind : os.find? (obsMatches mid) with
        | none => rfl
        | some o2 =>
          have hmem := List.mem_of_find?_eq_some hfind
          have : T ≤ o2.time := le_trans hT (hle o2 hmem)
          simp [decide_eq_false (Nat.not_lt.mpr this)]
      · have hstep : ackStep mid T AckState.initial o = AckState.initial := by
          unfold ackStep
          rw [if_neg hT]
          unfold handleObs
          simp [hm]
        rw [hstep]
        have := ih htail
        unfold ackRace at this
        exact this

/-- The final `messageAcked` flag is `ack >= 1` of the first matching event
of the timeline — no matter when that event arrives. -/
theorem ackRace_messageAcked (mid : String) (T : Nat) (obs : List AckObservation) :
    (ackRace mid T obs).messageAcked =
      (match obs.find? (obsMatches mid) with
       | some o => decide (1 ≤ o.level)
       | none => false) := by
  have h := (foldl_acked_of_listener_on mid T obs AckState.initial rfl).1
  unfold ackRace
  rw [(fireTimer_acked_listener _).1, h]
  cases obs.find? (obsMatches mid) <;> rfl

/-! ### Claims -/

/-- Claim C1, counterexample: the unhandled-rejection handler exits 0 for an
error text that does not match the benign pattern when `messageWasSent` is
true, where the claim requires exit code 1. -/
theorem unhandledRejection_nonbenign_after_send_exits_zero :
    unhandledRejectionExit "socket hang up" true false = 0 ∧
    isMarkedUnreadError "socket hang up" = false := by decide

/-- Claim C1 (amended): the unhandled-rejection handler exits 0 exactly when
`messageWasSent` or `messageAcked` is true, regardless of whether the error
text matches the benign pattern, and exits 1 exactly when both flags are
false. -/
theorem unhandledRejection_exit_spec (errMsg : String) (sent acked : Bool) :
    (unhandledRejectionExit errMsg sent acked = 0 ↔ (sent = true ∨ acked = true)) ∧
    (unhandledRejectionExit errMsg sent acked = 1 ↔ (sent = false ∧ acked = false)) := by
  cases hb : isMarkedUnreadError errMsg <;> cases sent <;> cases acked <;>
    simp [unhandledRejectionExit, hb]

/-- Claim C2, counterexample: with target `abc@g.us`, a snapshot whose first
group matches only by identifier and whose second group matches by exact
case-insensitive name resolves to the first group, not the name-matching
one. -/
theorem findGroup_snapshot_order_beats_name :
    findGroup [⟨true, "backup", ⟨"abc@g.us"⟩⟩, ⟨true, "ABC@g.us", ⟨"zzz"⟩⟩] "abc@g.us"
      = some ⟨true, "backup", ⟨"abc@g.us"⟩⟩ ∧
    nameMatches "abc@g.us" ⟨true, "ABC@g.us", ⟨"zzz"⟩⟩ = true ∧
    nameMatches "abc@g.us" ⟨true, "backup", ⟨"abc@g.us"⟩⟩ = false := by decide

/-- Claim C2 (amended): group resolution is deterministic and returns the
first group in snapshot order satisfying any of the three criteria (exact
case-insensitive name, exact identifier, identifier with the group suffix);
every chat earlier in the snapshot satisfies none of them — there is no
priority of name matches over identifier matches across the snapshot. -/
theorem findGroup_first_match_spec (chats : List Chat) (target : String) (g : Chat)
    (h : findGroup chats target = some g) :
    groupMatches target g = true ∧
    ∃ l₁ l₂, chats = l₁ ++ g :: l₂ ∧ ∀ c ∈ l₁, groupMatches target c = false :=
  find?_split (groupMatches target) chats g h

/-- Witness for claim C2's amended theorem at a concrete snapshot. -/
theorem findGroup_first_match_spec_witness :
    findGroup [⟨true, "Family", ⟨"123@g.us"⟩⟩] "family" =
      some ⟨true, "Family", ⟨"123@g.us"⟩⟩ ∧
    (groupMatches "family" ⟨true, "Family", ⟨"123@g.us"⟩⟩ = true ∧
     ∃ l₁ l₂, [(⟨true, "Family", ⟨"123@g.us"⟩⟩ : Chat)] =
         l₁ ++ (⟨true, "Family", ⟨"123@g.us"⟩⟩ : Chat) :: l₂ ∧
       ∀ c ∈ l₁, groupMatches "family" c = false) :=
  ⟨by decide, findGroup_first_match_spec _ _ _ (by decide)⟩

/-- Claim C3, code bug: when the timer wins the race (no matching event
before the timeout), the promise resolves `false` but the `message_ack`
listener stays registered — and a matching event arriving after the timeout
still fires the leaked handler, mutating `messageAcked` after the race
reported not-acknowledged. -/
theorem waitForAck_timeout_leaves_listener :
    (ackRace "m1" 20000 []).resolved = some false ∧
    (ackRace "m1" 20000 []).listenerOn = true ∧
    (ackRace "m1" 20000 [⟨some "m1", 1, 30000⟩]).messageAcked = true ∧
    (ackRace "m1" 20000 [⟨some "m1", 1, 30000⟩]).resolved = some false := by decide

/-- Claim C4, counterexample: a matching event with level 0 before the
timeout makes the race resolve `true` (report "acknowledged") while leaving
`messageAcked` false; and because the handler unsubscribes on any matching
event, a later level-1 matching event before the timeout never sets
`messageAcked`. -/
theorem ackRace_level_zero_still_reports_acknowledged :
    (ackRace "m1" 20000 [⟨some "m1", 0, 5000⟩]).resolved = some true ∧
    (ackRace "m1" 20000 [⟨some "m1", 0, 5000⟩]).messageAcked = false ∧
    (ackRace "m1" 20000 [⟨some "m1", 0, 5⟩, ⟨some "m1", 1, 6⟩]).messageAcked = false := by
  decide

/-- Claim C4 (amended): over a time-ordered event timeline, the first event
matching the sent message's id decides everything: `messageAcked` is set to
that event's `level ≥ 1` (whenever it arrives), and the race reports
"acknowledged" exactly when that event arrives strictly before the timeout,
regardless of its level; with no matching event, `messageAcked` stays false,
the race reports not-acknowledged, and the listener stays registered. -/
theorem ackRace_first_match_spec (mid : String) (T : Nat) (obs : List AckObservation)
    (hsorted : obs.Pairwise (fun a b => a.time ≤ b.time)) :
    (∀ o, obs.find? (obsMatches mid) = some o →
        (ackRace mid T obs).messageAcked = decide (1 ≤ o.level) ∧
        (ackRace mid T obs).resolved = some (decide (o.time < T))) ∧
    (obs.find? (obsMatches mid) = none →
        (ackRace mid T obs).messageAcked = false ∧
        (ackRace mid T obs).resolved = some false ∧
        (ackRace mid T obs).listenerOn = true) := by
  have hack := ackRace_messageAcked mid T obs
  have hres := ackRace_resolved_sorted mid T obs hsorted
  constructor
  · intro o ho
    simp only [ho] at hack hres
    exact ⟨hack, hres⟩
  · intro ho
    simp only [ho] at hack hres
    have hlist : (ackRace mid T obs).listenerOn = true := by
      unfold ackRace
      rw [(fireTimer_acked_listener _).2,
        (foldl_acked_of_listener_on mid T obs AckState.initial rfl).2, ho]
      rfl
    exact ⟨hack, hres, hlist⟩

/-- Witness for claim C4's amended theorem at a concrete timeline. -/
theorem ackRace_first_match_spec_witness :
    (ackRace "m1" 20000 [⟨some "m1", 1, 500⟩]).messageAcked = true ∧
    (ackRace "m1" 20000 [⟨some "m1", 1, 500⟩]).resolved = some true := by
  have h := (ackRace_first_match_spec "m1" 20000 [⟨some "m1", 1, 500⟩]
      (by simp)).1 ⟨some "m1", 1, 500⟩ (by decide)
  exact ⟨by rw [h.1]; decide, by rw [h.2]; decide⟩

/-- Claim C5 (confirmed): in every reachable state with `messageWasSent`
false, every failure class — resolve failure, send failure, disconnection,
unhandled rejection, authentication failure, initialization failure — exits
with code 1. -/
theorem unsent_failure_exits_one (ev : FailureEvent) (s : GlobalState)
    (h : Reachable s) (hs : s.sent = false) :
    failureExitCode ev s.sent s.acked = 1 := by
  have hacked : s.acked = false := by
    cases ha : s.acked
    · rfl
    · simp [(reachable_inv s h).1 ha] at hs
  cases ev <;>
    simp [failureExitCode, readyCatchExit, disconnectedExit, unhandledRejectionExit,
      groupNotFoundExit, authFailureExit, initErrorExit, hs, hacked]

/-- Witness for claim C5 at the process start state and a non-benign
unhandled rejection. -/
theorem unsent_failure_exits_one_witness :
    Reachable GlobalState.start ∧
    failureExitCode (.unhandledRejection "socket hang up") GlobalState.start.sent
      GlobalState.start.acked = 1 :=
  ⟨Relation.ReflTransGen.refl,
   unsent_failure_exits_one (.unhandledRejection "socket hang up") GlobalState.start
     Relation.ReflTransGen.refl rfl⟩

/-- Claim C6 (confirmed): for a post-send failure whose message text matches
the benign pattern, with `messageWasSent` true the ready handler's catch
block and the unhandled-rejection handler both exit 0. -/
theorem benign_post_send_exits_zero (errMsg : String) (acked : Bool)
    (h : isMarkedUnreadError errMsg = true) :
    readyCatchExit errMsg true = 0 ∧ unhandledRejectionExit errMsg true acked = 0 := by
  simp [readyCatchExit, unhandledRejectionExit, h]

/-- Witness for claim C6 at a concrete benign error text. -/
theorem benign_post_send_exits_zero_witness :
    isMarkedUnreadError "Evaluation failed: markedUnread" = true ∧
    readyCatchExit "Evaluation failed: markedUnread" true = 0 ∧
    unhandledRejectionExit "Evaluation failed: markedUnread" true false = 0 := by
  have h := benign_post_send_exits_zero "Evaluation failed: markedUnread" false (by decide)
  exact ⟨by decide, h.1, h.2⟩

/-- Claim C7 (confirmed): a first-attempt error matching the benign set leads
to exactly one retry with identical arguments — a successful retry records
the send and succeeds, a failed retry propagates the retry's error with
`messageWasSent` false; a non-benign first-attempt error is propagated at
once with `messageWasSent` false and no retry. -/
theorem sendWithRetry_spec (send : SendCall → Nat → SendResult) (chatId text : String)
    (e1 : String) (h1 : send ⟨chatId, text, ⟨false⟩⟩ 0 = .err e1) :
    (isMarkedUnreadError e1 = false →
       sendWithRetry send chatId text =
         ⟨false, .failure e1, [⟨chatId, text, ⟨false⟩⟩]⟩) ∧
    (isMarkedUnreadError e1 = true →
       (sendWithRetry send chatId text).calls =
         [⟨chatId, text, ⟨false⟩⟩, ⟨chatId, text, ⟨false⟩⟩] ∧
       (∀ s2, send ⟨chatId, text, ⟨false⟩⟩ 1 = .ok s2 →
          sendWithRetry send chatId text =
            ⟨true, .success s2, [⟨chatId, text, ⟨false⟩⟩, ⟨chatId, text, ⟨false⟩⟩]⟩) ∧
       (∀ e2, send ⟨chatId, text, ⟨false⟩⟩ 1 = .err e2 →
          sendWithRetry send chatId text =
            ⟨false, .failure e2, [⟨chatId, text, ⟨false⟩⟩, ⟨chatId, text, ⟨false⟩⟩]⟩)) := by
  refine ⟨fun hb => ?_, fun hb => ⟨?_, fun s2 h2 => ?_, fun e2 h2 => ?_⟩⟩
  · simp [sendWithRetry, h1, hb]
  · cases h2 : send ⟨chatId, text, ⟨false⟩⟩ 1 <;> simp [sendWithRetry, h1, hb, h2]
  · simp [sendWithRetry, h1, hb, h2]
  · simp [sendWithRetry, h1, hb, h2]

/-- Witness for claim C7: a send whose first attempt throws a benign error
and whose retry succeeds records the send and reports the retry's message. -/
theorem sendWithRetry_spec_witness :
    sendWithRetry
        (fun _ n => if n == 0 then .err "Evaluation failed: sendSeen" else .ok ⟨some ⟨some "id9"⟩⟩)
        "15551234567@c.us" "hello" =
      ⟨true, .success ⟨some ⟨some "id9"⟩⟩,
       [⟨"15551234567@c.us", "hello", ⟨false⟩⟩, ⟨"15551234567@c.us", "hello", ⟨false⟩⟩]⟩ := by
  have h := sendWithRetry_spec
      (fun _ n => if n == 0 then .err "Evaluation failed: sendSeen" else .ok ⟨some ⟨some "id9"⟩⟩)
      "15551234567@c.us" "hello" "Evaluation failed: sendSeen" rfl
  exact (h.2 (by decide)).2.1 ⟨some ⟨some "id9"⟩⟩ rfl

/-- Claim C8 (confirmed): contact resolution is purely syntactic and always
produces a channel id — a target holding the domain separator is used
verbatim, any other target becomes its digits with the contact suffix
appended, and with a non-empty digit sequence the digit part is non-empty and
all digits. -/
theorem resolveContact_spec (target : String)
    (hd : target.data.filter Char.isDigit ≠ []) :
    (jsIncludes target "@" = true → resolveContact target = target) ∧
    (jsIncludes target "@" = false →
      ∃ digits : String, resolveContact target = digits ++ "@c.us" ∧ digits ≠ "" ∧
        digits.data.all Char.isDigit = true ∧
        digits.data = target.data.filter Char.isDigit) := by
  constructor
  · intro hq
    simp [resolveContact, hq]
  · intro hq
    refine ⟨String.mk (target.data.filter Char.isDigit), ?_, ?_, ?_, rfl⟩
    · simp [resolveContact, hq]
    · intro hempty
      exact hd (by simpa using congrArg String.data hempty)
    · simp only [List.all_eq_true]
      intro x hx
      exact (List.mem_filter.mp hx).2

/-- Witness for claim C8 at the spec's example target. -/
theorem resolveContact_spec_witness :
    resolveContact "+1 (555) 123-4567" = "15551234567@c.us" ∧
    (∃ digits : String, resolveContact "+1 (555) 123-4567" = digits ++ "@c.us" ∧
       digits ≠ "" ∧ digits.data.all Char.isDigit = true ∧
       digits.data = "+1 (555) 123-4567".data.filter Char.isDigit) :=
  ⟨by decide, (resolveContact_spec "+1 (555) 123-4567" (by decide)).2 (by decide)⟩

/-- Claim C9 (confirmed): in every reachable state of the script,
`messageAcked` implies `messageWasSent` — the acknowledgment listener is
registered only after a successful send recorded the sent flag. -/
theorem acked_implies_sent (s : GlobalState) (h : Reachable s) (ha : s.acked = true) :
    s.sent = true :=
  (reachable_inv s h).1 ha

/-- Witness for claim C9 at the state reached by sending, subscribing, and
receiving a level-1 acknowledgment. -/
theorem acked_implies_sent_witness :
    Reachable ⟨true, true, false⟩ ∧ (⟨true, true, false⟩ : GlobalState).sent = true := by
  have hr : Reachable (⟨true, true, false⟩ : GlobalState) :=
    Relation.ReflTransGen.tail
      (Relation.ReflTransGen.tail
        (Relation.ReflTransGen.tail Relation.ReflTransGen.refl Step.markSent)
        Step.subscribe)
      (Step.ackFire 1 true false)
  exact ⟨hr, acked_implies_sent _ hr rfl⟩

/-- Claim C10 (confirmed): when the sent message lacks a truthy serialized
id, the ready handler skips the acknowledgment race entirely (no listener, no
timer, `messageAcked` stays false) and still settles 1000 ms, destroys the
client, and exits 0. -/
theorem missing_id_skips_ack_race (sent : SentMessage) (T : Nat)
    (obs : List AckObservation) (h : hasSerializedId sent = false) :
    (postSendPhase sent T obs).raceState = none ∧
    (postSendPhase sent T obs).messageAcked = false ∧
    (postSendPhase sent T obs).exitCode = 0 ∧
    (postSendPhase sent T obs).destroyed = true ∧
    (postSendPhase sent T obs).settleDelayMs = 1000 := by
  cases sent with
  | mk id =>
    cases id with
    | none => exact ⟨rfl, rfl, rfl, rfl, rfl⟩
    | some mid =>
      cases mid with
      | mk ser =>
        cases ser with
        | none => exact ⟨rfl, rfl, rfl, rfl, rfl⟩
        | some sid =>
          simp only [hasSerializedId] at h
          simp [postSendPhase, h]

/-- Witness for claim C10 at a sent message with no id at all. -/
theorem missing_id_skips_ack_race_witness :
    hasSerializedId ⟨none⟩ = false ∧
    (postSendPhase ⟨none⟩ 20000 []).raceState = none ∧
    (postSendPhase ⟨none⟩ 20000 []).messageAcked = false ∧
    (postSendPhase ⟨none⟩ 20000 []).exitCode = 0 :=
  ⟨rfl, (missing_id_skips_ack_race ⟨none⟩ 20000 [] rfl).1,
    (missing_id_skips_ack_race ⟨none⟩ 20000 [] rfl).2.1,
    (missing_id_skips_ack_race ⟨none⟩ 20000 [] rfl).2.2.1⟩

end Xablau
